import Mathlib

/-!
Shallow embedding of the `allow_pin` buffer-sharing library from
tock/design-explorations.

The library manages buffers that are lent ("allowed") to a microkernel and
later reclaimed.  The kernel is external; its Share Primitive is modelled as a
share table `KTable` mapping an allow id (syscall class RO/RW, driver number,
buffer number) to the `(address, length)` pair currently registered, together
with a per-call kernel response `resp : Option Nat` (`none` = the kernel
accepts the share, `some e` = the kernel rejects it with error code `e`).
Per the Share Primitive contract in the repository's documentation, an
"unallow" (a share of the null pointer with length 0) always succeeds.

Buffers are pinned, so each embedded buffer carries a fixed abstract address
`addr : Nat` for its storage, and its storage contents as a `List Nat`
(bytes).  Every operation additionally returns the list of raw kernel calls
it performed (`List KCall`), in order, so that claims such as "makes no
kernel call" or "performs an unshare" are directly statable.
-/

namespace AllowPin

/-- RO vs RW allow, `enum DynamicType { Rw = 3, Ro = 4 }` in `lib.rs`. -/
inductive DynamicType where
  | Rw
  | Ro
deriving DecidableEq, Repr

/-- The numeric discriminants of `DynamicType` (`Rw = 3`, `Ro = 4`). -/
def DynamicType.code : DynamicType → Nat
  | .Rw => 3
  | .Ro => 4

/-- The id under which the kernel registers a shared region: the syscall
class (RO vs RW allow), the driver number and the buffer number. -/
structure AllowId where
  cls : DynamicType
  driver_num : Nat
  buffer_num : Nat
deriving DecidableEq, Repr

/-- The kernel's share table: per allow id, the `(address, length)` region
currently registered, if any. -/
def KTable := AllowId → Option (Nat × Nat)

/-- The share table in which nothing is registered. -/
def KTable.empty : KTable := fun _ => none

/-- Update one entry of the share table. -/
def KTable.set (k : KTable) (i : AllowId) (v : Option (Nat × Nat)) : KTable :=
  fun j => if j = i then v else k j

@[simp]
theorem KTable.set_self (k : KTable) (i : AllowId) (v : Option (Nat × Nat)) :
    k.set i v i = v := by
  simp [KTable.set]

theorem KTable.set_ne (k : KTable) (i j : AllowId) (v : Option (Nat × Nat))
    (h : j ≠ i) : k.set i v j = k j := by
  simp [KTable.set, h]

/-- A record of one raw Allow system call (`dynamic_allow`/`static_allow` in
`lib.rs`): the class, driver number, buffer number, address (`none` is the
null pointer, i.e. an unallow) and length. -/
structure KCall where
  cls : DynamicType
  driver_num : Nat
  buffer_num : Nat
  address : Option Nat
  len : Nat
deriving DecidableEq, Repr

/-- The Share Primitive (`dynamic_allow` in `lib.rs`), modelled from the
spec's external-interface contract: sharing a non-null region either succeeds
(registering the region and returning `none`) or is rejected by the kernel
(`resp = some e`; the table is unchanged and the error code is returned);
sharing the null pointer (an unallow) always succeeds and clears the entry.
The `Option Nat` result is the library's view: `allow_inner` turns the
`variant == 2` return into `Err(r1)` and everything else into `Ok(())`. -/
def dynamic_allow (k : KTable) (resp : Option Nat) (driver_num buffer_num : Nat)
    (address : Option Nat) (len : Nat) (allow_type : DynamicType) :
    KTable × Option Nat :=
  match address with
  | none => (k.set ⟨allow_type, driver_num, buffer_num⟩ none, none)
  | some a =>
    match resp with
    | none => (k.set ⟨allow_type, driver_num, buffer_num⟩ (some (a, len)) , none)
    | some e => (k, some e)

namespace dynamic_type

/-- `dynamic_type::Buffer<B, DRIVER_NUM, BUFFER_NUM>`: tracks RO vs RW at
runtime (`shared : Option DynamicType`), the id is a const generic (here a
plain argument to each operation).  `addr` is the pinned address of the
`buffer` field; `storage` is that field's contents. -/
structure Buffer where
  addr : Nat
  shared : Option DynamicType
  storage : List Nat
deriving DecidableEq, Repr

/-- `From<B> for Buffer`: starts unshared. -/
def Buffer.fromStorage (addr : Nat) (storage : List Nat) : Buffer :=
  ⟨addr, none, storage⟩

/-- `dynamic_type::unshare`: a `dynamic_allow` of the null pointer. -/
def unshare (k : KTable) (driver_num buffer_num : Nat) (allow_type : DynamicType) :
    KTable × List KCall :=
  ((dynamic_allow k none driver_num buffer_num none 0 allow_type).1,
   [⟨allow_type, driver_num, buffer_num, none, 0⟩])

/-- `dynamic_type::allow_inner`: one `dynamic_allow` of the given region;
`variant == 2` becomes `Err(r1)`, otherwise `Ok(())`. -/
def allow_inner (k : KTable) (resp : Option Nat) (driver_num buffer_num : Nat)
    (addr len : Nat) (allow_type : DynamicType) :
    KTable × Except Nat Unit × List KCall :=
  let r := dynamic_allow k resp driver_num buffer_num (some addr) len allow_type
  (r.1,
   match r.2 with
   | some e => .error e
   | none => .ok (),
   [⟨allow_type, driver_num, buffer_num, some addr, len⟩])

/-- `Buffer::allow`: fails with `Err(3)` (AlreadyShared) without any kernel
call if `shared` is populated; otherwise performs `allow_inner` on the
buffer's own region, and only on success records `shared = Some allow_type`. -/
def Buffer.allow (driver_num buffer_num : Nat) (resp : Option Nat)
    (self : Buffer) (allow_type : DynamicType) (k : KTable) :
    Buffer × KTable × Except Nat Unit × List KCall :=
  if self.shared.isSome then
    (self, k, .error 3, [])
  else
    match allow_inner k resp driver_num buffer_num self.addr self.storage.length allow_type with
    | (k2, .error e, tr) => (self, k2, .error e, tr)
    | (k2, .ok _, tr) => ({ self with shared := some allow_type }, k2, .ok (), tr)

/-- `Buffer::buffer`: `None` while shared, otherwise the storage. -/
def Buffer.buffer (self : Buffer) : Option (List Nat) :=
  if self.shared.isSome then none else some self.storage

/-- `Buffer::buffer_mut`: `None` while shared, otherwise the storage. -/
def Buffer.buffer_mut (self : Buffer) : Option (List Nat) :=
  if self.shared.isSome then none else some self.storage

/-- `Buffer::unallow`: unshares if currently shared, clears `shared`, and
returns the storage. -/
def Buffer.unallow (driver_num buffer_num : Nat) (self : Buffer) (k : KTable) :
    Buffer × KTable × List Nat × List KCall :=
  match self.shared with
  | some p =>
    let u := unshare k driver_num buffer_num p
    ({ self with shared := none }, u.1, self.storage, u.2)
  | none => ({ self with shared := none }, k, self.storage, [])

/-- `Buffer::share_status`. -/
def Buffer.share_status (self : Buffer) : Option DynamicType :=
  self.shared

/-- `Buffer::replace_with`, embedded exactly as written in the source: when
`self` is shared with `allow_type`, it calls `allow_inner` on **`this.buffer`**
(self's own region — the source passes `&mut this.buffer`, not `other`'s),
discards that call's result (`let _ = ...`), then unconditionally clears
`self.shared`, sets `other.shared = Some(allow_type)` and returns `Ok(())`;
when `self` is unshared it returns `Err(6)` with no kernel call.  In every
case the returned storage is `self`'s. -/
def Buffer.replace_with (driver_num buffer_num : Nat) (resp : Option Nat)
    (self other : Buffer) (k : KTable) :
    Buffer × Buffer × KTable × List Nat × Except Nat Unit × List KCall :=
  match self.shared with
  | some allow_type =>
    let r := allow_inner k resp driver_num buffer_num self.addr self.storage.length allow_type
    ({ self with shared := none }, { other with shared := some allow_type },
     r.1, self.storage, .ok (), r.2.2)
  | none => (self, other, k, self.storage, .error 6, [])

/-- `Drop for Buffer`: unshares only if `shared` is populated. -/
def Buffer.drop (driver_num buffer_num : Nat) (self : Buffer) (k : KTable) :
    KTable × List KCall :=
  match self.shared with
  | some p => unshare k driver_num buffer_num p
  | none => (k, [])

end dynamic_type

namespace full_dynamic

/-- `full_dynamic::ShareInfo`: the allow type and id recorded while shared. -/
structure ShareInfo where
  allow_type : DynamicType
  driver_num : Nat
  buffer_num : Nat
deriving DecidableEq, Repr

/-- `full_dynamic::Buffer<B>`: tracks allow type and allow id at runtime. -/
structure Buffer where
  addr : Nat
  shared : Option ShareInfo
  storage : List Nat
deriving DecidableEq, Repr

/-- `From<B> for Buffer`: starts unshared. -/
def Buffer.fromStorage (addr : Nat) (storage : List Nat) : Buffer :=
  ⟨addr, none, storage⟩

/-- `full_dynamic::unshare`: a `dynamic_allow` of the null pointer under the
recorded id. -/
def unshare (info : ShareInfo) (k : KTable) : KTable × List KCall :=
  ((dynamic_allow k none info.driver_num info.buffer_num none 0 info.allow_type).1,
   [⟨info.allow_type, info.driver_num, info.buffer_num, none, 0⟩])

/-- `full_dynamic::unshare_if_shared`: unshares and clears the record when
populated, otherwise does nothing. -/
def unshare_if_shared (shared : Option ShareInfo) (k : KTable) :
    Option ShareInfo × KTable × List KCall :=
  match shared with
  | some info =>
    let u := unshare info k
    (none, u.1, u.2)
  | none => (shared, k, [])

/-- `full_dynamic::Buffer::allow`: `Err(3)` with no kernel call if already
shared; otherwise one `dynamic_allow` of the buffer's region, recording the
`ShareInfo` only on success and passing a rejection's code through. -/
def Buffer.allow (resp : Option Nat) (self : Buffer) (allow_type : DynamicType)
    (driver_num buffer_num : Nat) (k : KTable) :
    Buffer × KTable × Except Nat Unit × List KCall :=
  if self.shared.isSome then
    (self, k, .error 3, [])
  else
    let r := dynamic_allow k resp driver_num buffer_num (some self.addr)
      self.storage.length allow_type
    let tr : List KCall := [⟨allow_type, driver_num, buffer_num, some self.addr,
      self.storage.length⟩]
    match r.2 with
    | some e => (self, r.1, .error e, tr)
    | none =>
      ({ self with shared := some ⟨allow_type, driver_num, buffer_num⟩ },
       r.1, .ok (), tr)

/-- `full_dynamic::Buffer::buffer`: `None` while shared, else the storage. -/
def Buffer.buffer (self : Buffer) : Option (List Nat) :=
  if self.shared.isSome then none else some self.storage

/-- `full_dynamic::Buffer::buffer_mut`: `None` while shared, else the storage. -/
def Buffer.buffer_mut (self : Buffer) : Option (List Nat) :=
  if self.shared.isSome then none else some self.storage

/-- `full_dynamic::Buffer::unallow`: `unshare_if_shared` then return storage. -/
def Buffer.unallow (self : Buffer) (k : KTable) :
    Buffer × KTable × List Nat × List KCall :=
  let u := unshare_if_shared self.shared k
  ({ self with shared := u.1 }, u.2.1, self.storage, u.2.2)

/-- `Drop for full_dynamic::Buffer`: `unshare_if_shared`. -/
def Buffer.drop (self : Buffer) (k : KTable) : KTable × List KCall :=
  ((unshare_if_shared self.shared k).2.1, (unshare_if_shared self.shared k).2.2)

/-- `full_dynamic::StaticBuffer<B>`: an optional reference to process-static
storage (`buffer_ref`, modelled as its address and contents) plus a
`ShareInfo` record.  `Default` leaves `buffer_ref = None`. -/
structure StaticBuffer where
  buffer_ref : Option (Nat × List Nat)
  shared : Option ShareInfo
deriving DecidableEq, Repr

/-- `Default for StaticBuffer`: no referent, unshared. -/
def StaticBuffer.default : StaticBuffer :=
  ⟨none, none⟩

/-- `From<&'static B> for StaticBuffer`. -/
def StaticBuffer.fromRef (addr : Nat) (storage : List Nat) : StaticBuffer :=
  ⟨some (addr, storage), none⟩

/-- `StaticBuffer::allow`: `Err(3)` if already shared, `Err(9)` if there is
no referent; otherwise a read-only `dynamic_allow` of the referent, recording
the `ShareInfo` only on success. -/
def StaticBuffer.allow (resp : Option Nat) (self : StaticBuffer)
    (driver_num buffer_num : Nat) (k : KTable) :
    StaticBuffer × KTable × Except Nat Unit × List KCall :=
  if self.shared.isSome then
    (self, k, .error 3, [])
  else
    match self.buffer_ref with
    | none => (self, k, .error 9, [])
    | some (a, s) =>
      let r := dynamic_allow k resp driver_num buffer_num (some a) s.length .Ro
      let tr : List KCall := [⟨.Ro, driver_num, buffer_num, some a, s.length⟩]
      match r.2 with
      | some e => (self, r.1, .error e, tr)
      | none =>
        ({ self with shared := some ⟨.Ro, driver_num, buffer_num⟩ },
         r.1, .ok (), tr)

/-- `StaticBuffer::buffer`: `None` while shared, otherwise `buffer_ref`'s
contents — which is itself `None` when no referent was ever attached. -/
def StaticBuffer.buffer (self : StaticBuffer) : Option (List Nat) :=
  if self.shared.isSome then none else self.buffer_ref.map Prod.snd

/-- `StaticBuffer::unallow`: `unshare_if_shared`, then `buffer_ref`. -/
def StaticBuffer.unallow (self : StaticBuffer) (k : KTable) :
    StaticBuffer × KTable × Option (List Nat) × List KCall :=
  let u := unshare_if_shared self.shared k
  ({ self with shared := u.1 }, u.2.1, self.buffer_ref.map Prod.snd, u.2.2)

/-- `Drop for StaticBuffer`: `unshare_if_shared`. -/
def StaticBuffer.drop (self : StaticBuffer) (k : KTable) : KTable × List KCall :=
  ((unshare_if_shared self.shared k).2.1, (unshare_if_shared self.shared k).2.2)

end full_dynamic

namespace no_dynamic

/-- `no_dynamic::Buffer<P, B, DRIVER_NUM, BUFFER_NUM>`: no runtime share
state at all — only the pinned storage.  The static permission parameter `P`
(`StaticRo`/`StaticRw`) is passed to each operation as the `DynamicType` it
denotes (`StaticType::CLASS`). -/
structure Buffer where
  addr : Nat
  storage : List Nat
deriving DecidableEq, Repr

/-- `From<B> for Buffer`. -/
def Buffer.fromStorage (addr : Nat) (storage : List Nat) : Buffer :=
  ⟨addr, storage⟩

/-- `no_dynamic::unshare`: a null `static_allow` under class `P`;
postcondition per the source comment: no buffer is shared under the id. -/
def unshare (P : DynamicType) (driver_num buffer_num : Nat) (k : KTable) :
    KTable × List KCall :=
  ((dynamic_allow k none driver_num buffer_num none 0 P).1,
   [⟨P, driver_num, buffer_num, none, 0⟩])

/-- `no_dynamic::allow_inner`: one `static_allow` of the given region. -/
def allow_inner (P : DynamicType) (k : KTable) (resp : Option Nat)
    (driver_num buffer_num : Nat) (addr len : Nat) :
    KTable × Except Nat Unit × List KCall :=
  let r := dynamic_allow k resp driver_num buffer_num (some addr) len P
  (r.1,
   match r.2 with
   | some e => .error e
   | none => .ok (),
   [⟨P, driver_num, buffer_num, some addr, len⟩])

/-- `no_dynamic::Buffer::allow` (shared RO/RW impl): unconditionally performs
the kernel share of the buffer's own region — there is no share state to
check, so no `AlreadyShared` path exists. -/
def Buffer.allow (P : DynamicType) (driver_num buffer_num : Nat)
    (resp : Option Nat) (self : Buffer) (k : KTable) :
    KTable × Except Nat Unit × List KCall :=
  allow_inner P k resp driver_num buffer_num self.addr self.storage.length

/-- `no_dynamic::Buffer::<StaticRo>::allow_ro`: same share of the buffer's
region, read-only class. -/
def Buffer.allow_ro (driver_num buffer_num : Nat) (resp : Option Nat)
    (self : Buffer) (k : KTable) : KTable × Except Nat Unit × List KCall :=
  allow_inner .Ro k resp driver_num buffer_num self.addr self.storage.length

/-- `no_dynamic::Buffer::<StaticRo>::buffer`: plain read access, no kernel
call (read-only shares cannot be mutated by the kernel). -/
def Buffer.buffer_ro (self : Buffer) : List Nat :=
  self.storage

/-- `no_dynamic::Buffer::<StaticRw>::buffer`: unconditionally unshares the
id, then returns the storage. -/
def Buffer.buffer_rw (driver_num buffer_num : Nat) (self : Buffer) (k : KTable) :
    KTable × List Nat × List KCall :=
  let u := unshare .Rw driver_num buffer_num k
  (u.1, self.storage, u.2)

/-- `no_dynamic::Buffer::buffer_mut` (shared impl): unconditionally unshares
the id, then returns the storage. -/
def Buffer.buffer_mut (P : DynamicType) (driver_num buffer_num : Nat)
    (self : Buffer) (k : KTable) : KTable × List Nat × List KCall :=
  let u := unshare P driver_num buffer_num k
  (u.1, self.storage, u.2)

/-- `no_dynamic::Buffer::replace_with_mut`: allows `new` (the replacement),
returns `self`'s storage together with that call's result. -/
def Buffer.replace_with_mut (P : DynamicType) (driver_num buffer_num : Nat)
    (resp : Option Nat) (self new : Buffer) (k : KTable) :
    KTable × List Nat × Except Nat Unit × List KCall :=
  let r := new.allow P driver_num buffer_num resp k
  (r.1, self.storage, r.2.1, r.2.2)

/-- `Drop for no_dynamic::Buffer`: unconditionally unshares the id, shared
or not. -/
def Buffer.drop (P : DynamicType) (driver_num buffer_num : Nat)
    (_self : Buffer) (k : KTable) : KTable × List KCall :=
  unshare P driver_num buffer_num k

end no_dynamic

namespace swap_no_dynamic

/-- `examples/swap_no_dynamic.rs`: which buffer is currently shared. -/
inductive ShareStatus where
  | None
  | A
  | B
deriving DecidableEq, Repr

/-- `StreamingReceiveSlice<LEN, DRIVER_NUM, BUFFER_NUM>` over two
`no_dynamic` RW buffers plus a `ShareStatus`. -/
structure StreamingReceiveSlice where
  buffer_a : no_dynamic.Buffer
  buffer_b : no_dynamic.Buffer
  share_status : ShareStatus
deriving DecidableEq, Repr

/-- `Default for StreamingReceiveSlice`: both storages zeroed, not started. -/
def StreamingReceiveSlice.default (addr_a addr_b len : Nat) : StreamingReceiveSlice :=
  ⟨⟨addr_a, List.replicate len 0⟩, ⟨addr_b, List.replicate len 0⟩, .None⟩

/-- `StreamingReceiveSlice::start`: allows `buffer_a`; on success sets
`share_status = A`, on kernel rejection propagates the error with the status
untouched. -/
def StreamingReceiveSlice.start (driver_num buffer_num : Nat) (resp : Option Nat)
    (self : StreamingReceiveSlice) (k : KTable) :
    StreamingReceiveSlice × KTable × Except Nat Unit × List KCall :=
  let r := self.buffer_a.allow .Rw driver_num buffer_num resp k
  match r.2.1 with
  | .error e => (self, r.1, .error e, r.2.2)
  | .ok _ => ({ self with share_status := .A }, r.1, .ok (), r.2.2)

/-- `StreamingReceiveSlice::next`: `Err(4)` when not started; otherwise
`replace_with_mut` from the active buffer onto the other one, advancing
`share_status` only when the new share succeeded, and returning the formerly
active buffer's storage. -/
def StreamingReceiveSlice.next (driver_num buffer_num : Nat) (resp : Option Nat)
    (self : StreamingReceiveSlice) (k : KTable) :
    StreamingReceiveSlice × KTable × Except Nat (List Nat) × List KCall :=
  match self.share_status with
  | .None => (self, k, .error 4, [])
  | .A =>
    let r := self.buffer_a.replace_with_mut .Rw driver_num buffer_num resp
      self.buffer_b k
    match r.2.2.1 with
    | .error e => (self, r.1, .error e, r.2.2.2)
    | .ok _ => ({ self with share_status := .B }, r.1, .ok r.2.1, r.2.2.2)
  | .B =>
    let r := self.buffer_b.replace_with_mut .Rw driver_num buffer_num resp
      self.buffer_a k
    match r.2.2.1 with
    | .error e => (self, r.1, .error e, r.2.2.2)
    | .ok _ => ({ self with share_status := .A }, r.1, .ok r.2.1, r.2.2.2)

end swap_no_dynamic

namespace swap_dynamic_type

/-- `examples/swap_dynamic_type.rs`: `StreamingReceiveSlice` over two
`dynamic_type` buffers; the active side is tracked only by the buffers' own
`shared` flags. -/
structure StreamingReceiveSlice where
  buffer_a : dynamic_type.Buffer
  buffer_b : dynamic_type.Buffer
deriving DecidableEq, Repr

/-- `Default for StreamingReceiveSlice`: both storages zeroed, unshared. -/
def StreamingReceiveSlice.default (addr_a addr_b len : Nat) : StreamingReceiveSlice :=
  ⟨⟨addr_a, none, List.replicate len 0⟩, ⟨addr_b, none, List.replicate len 0⟩⟩

/-- `StreamingReceiveSlice::start`: `buffer_a.allow(DynamicType::Rw)?`. -/
def StreamingReceiveSlice.start (driver_num buffer_num : Nat) (resp : Option Nat)
    (self : StreamingReceiveSlice) (k : KTable) :
    StreamingReceiveSlice × KTable × Except Nat Unit × List KCall :=
  let r := dynamic_type.Buffer.allow driver_num buffer_num resp self.buffer_a .Rw k
  match r.2.2.1 with
  | .error e => ({ self with buffer_a := r.1 }, r.2.1, .error e, r.2.2.2)
  | .ok _ => ({ self with buffer_a := r.1 }, r.2.1, .ok (), r.2.2.2)

/-- `StreamingReceiveSlice::next`: picks `(old, new)` by `buffer_a`'s share
status (`None → (b, a)`, `Some → (a, b)`), runs `old.replace_with(new)` and
propagates its result. -/
def StreamingReceiveSlice.next (driver_num buffer_num : Nat) (resp : Option Nat)
    (self : StreamingReceiveSlice) (k : KTable) :
    StreamingReceiveSlice × KTable × Except Nat (List Nat) × List KCall :=
  match self.buffer_a.share_status with
  | none =>
    let r := dynamic_type.Buffer.replace_with driver_num buffer_num resp
      self.buffer_b self.buffer_a k
    let self2 : StreamingReceiveSlice := ⟨r.2.1, r.1⟩
    match r.2.2.2.2.1 with
    | .error e => (self2, r.2.2.1, .error e, r.2.2.2.2.2)
    | .ok _ => (self2, r.2.2.1, .ok r.2.2.2.1, r.2.2.2.2.2)
  | some _ =>
    let r := dynamic_type.Buffer.replace_with driver_num buffer_num resp
      self.buffer_a self.buffer_b k
    let self2 : StreamingReceiveSlice := ⟨r.1, r.2.1⟩
    match r.2.2.2.2.1 with
    | .error e => (self2, r.2.2.1, .error e, r.2.2.2.2.2)
    | .ok _ => (self2, r.2.2.1, .ok r.2.2.2.1, r.2.2.2.2.2)

end swap_dynamic_type

/-! ## Claim theorems -/

/-- C1 (counterexample): the claim "access() returns a populated result if
and only if the share state is Unshared" fails on `full_dynamic::StaticBuffer`:
a `Default`-constructed `StaticBuffer` is Unshared (`shared = none`) yet
`buffer()` returns `None`, because no static referent is attached. -/
theorem c1_access_counterexample :
    ¬ ((full_dynamic.StaticBuffer.default.buffer).isSome ↔
        full_dynamic.StaticBuffer.default.shared = none) := by
  decide

/-- C1 (amended): for the `dynamic_type` and `full_dynamic` `Buffer`
variants, `buffer()`/`buffer_mut()` return `Some` iff the share state is
Unshared (`shared = none`); for `full_dynamic::StaticBuffer`, `buffer()`
returns `Some` iff it is Unshared **and** a backing static referent is
attached. -/
theorem c1_access_iff_amended :
    (∀ b : dynamic_type.Buffer,
      (b.buffer.isSome ↔ b.shared = none) ∧ (b.buffer_mut.isSome ↔ b.shared = none))
    ∧ (∀ b : full_dynamic.Buffer,
      (b.buffer.isSome ↔ b.shared = none) ∧ (b.buffer_mut.isSome ↔ b.shared = none))
    ∧ (∀ sb : full_dynamic.StaticBuffer,
      sb.buffer.isSome ↔ (sb.shared = none ∧ sb.buffer_ref.isSome)) := by
  refine ⟨fun b => ?_, fun b => ?_, fun sb => ?_⟩
  · obtain ⟨a, sh, s⟩ := b
    cases sh <;> simp [dynamic_type.Buffer.buffer, dynamic_type.Buffer.buffer_mut]
  · obtain ⟨a, sh, s⟩ := b
    cases sh <;> simp [full_dynamic.Buffer.buffer, full_dynamic.Buffer.buffer_mut]
  · obtain ⟨br, sh⟩ := sb
    cases sh <;> cases br <;>
      simp [full_dynamic.StaticBuffer.buffer]

/-- C2 (counterexample): the claim's clause (1) — "if the buffer is already
Shared, share returns the AlreadyShared error, makes no kernel call, and
leaves the share state unchanged" — fails on the `no_dynamic` variant: with
the buffer's own region (address 100, length 2) already registered with the
kernel under its id, `allow` still performs a kernel share call and returns
`Ok(())`, not `AlreadyShared`. -/
theorem c2_already_shared_counterexample :
    (KTable.set KTable.empty ⟨.Rw, 1, 2⟩ (some (100, 2))) ⟨.Rw, 1, 2⟩ = some (100, 2)
    ∧ (no_dynamic.Buffer.allow .Rw 1 2 none ⟨100, [0, 0]⟩
        (KTable.set KTable.empty ⟨.Rw, 1, 2⟩ (some (100, 2)))).2.1 = .ok ()
    ∧ (no_dynamic.Buffer.allow .Rw 1 2 none ⟨100, [0, 0]⟩
        (KTable.set KTable.empty ⟨.Rw, 1, 2⟩ (some (100, 2)))).2.2 =
      [⟨.Rw, 1, 2, some 100, 2⟩] :=
  ⟨rfl, rfl, rfl⟩

/-- C2 (amended): the three clauses hold for the share-state-tracking
variants.  For `dynamic_type` and `full_dynamic` Buffers: (1) when already
Shared, `allow` returns error 3 (AlreadyShared) with no kernel call and no
state change; (2) when the kernel rejects with code `e`, the state stays
Unshared, the table is unchanged, and `e` is returned verbatim; (3) on
success the state becomes Shared with the requested mode.  The `no_dynamic`
variant tracks no share state: `allow` unconditionally performs exactly one
kernel share of its own region and returns the kernel's verdict verbatim,
never AlreadyShared. -/
theorem c2_share_behaviour_amended :
    (∀ a s t u (k : KTable) d bn resp,
      dynamic_type.Buffer.allow d bn resp ⟨a, some u, s⟩ t k = (⟨a, some u, s⟩, k, .error 3, []))
    ∧ (∀ a s t e (k : KTable) d bn,
      dynamic_type.Buffer.allow d bn (some e) ⟨a, none, s⟩ t k =
        (⟨a, none, s⟩, k, .error e, [⟨t, d, bn, some a, s.length⟩]))
    ∧ (∀ a s t (k : KTable) d bn,
      dynamic_type.Buffer.allow d bn none ⟨a, none, s⟩ t k =
        (⟨a, some t, s⟩, KTable.set k ⟨t, d, bn⟩ (some (a, s.length)), .ok (),
         [⟨t, d, bn, some a, s.length⟩]))
    ∧ (∀ a s t i (k : KTable) d bn resp,
      full_dynamic.Buffer.allow resp ⟨a, some i, s⟩ t d bn k = (⟨a, some i, s⟩, k, .error 3, []))
    ∧ (∀ a s t e (k : KTable) d bn,
      full_dynamic.Buffer.allow (some e) ⟨a, none, s⟩ t d bn k =
        (⟨a, none, s⟩, k, .error e, [⟨t, d, bn, some a, s.length⟩]))
    ∧ (∀ a s t (k : KTable) d bn,
      full_dynamic.Buffer.allow none ⟨a, none, s⟩ t d bn k =
        (⟨a, some ⟨t, d, bn⟩, s⟩, KTable.set k ⟨t, d, bn⟩ (some (a, s.length)), .ok (),
         [⟨t, d, bn, some a, s.length⟩]))
    ∧ (∀ P d bn e a s (k : KTable),
      no_dynamic.Buffer.allow P d bn (some e) ⟨a, s⟩ k =
        (k, .error e, [⟨P, d, bn, some a, s.length⟩]))
    ∧ (∀ P d bn a s (k : KTable),
      no_dynamic.Buffer.allow P d bn none ⟨a, s⟩ k =
        (KTable.set k ⟨P, d, bn⟩ (some (a, s.length)), .ok (),
         [⟨P, d, bn, some a, s.length⟩])) := by
  refine ⟨?_, ?_, ?_, ?_, ?_, ?_, ?_, ?_⟩ <;> (intros; rfl)

/-- C3 (code bug, evaluation at the failing input): `dynamic_type`'s
`replace_with`, with `self` Shared RW (region at address 100, length 3,
registered with the kernel), `other` at address 200, and the kernel rejecting
with code 5, invokes the Share Primitive on **self's** region (address 100,
not the replacement's 200), ignores the rejection, clears `self.shared`,
marks `other` Shared, and returns `Ok(())` — so the kernel still holds
self's region while the library believes the transfer happened. -/
theorem c3_replace_with_failing_run :
    dynamic_type.Buffer.replace_with 1 2 (some 5) ⟨100, some .Rw, [1, 2, 3]⟩
        ⟨200, none, [4, 5, 6]⟩ (KTable.set KTable.empty ⟨.Rw, 1, 2⟩ (some (100, 3))) =
      (⟨100, none, [1, 2, 3]⟩, ⟨200, some .Rw, [4, 5, 6]⟩,
       KTable.set KTable.empty ⟨.Rw, 1, 2⟩ (some (100, 3)), [1, 2, 3], .ok (),
       [⟨.Rw, 1, 2, some 100, 3⟩])
    ∧ (dynamic_type.Buffer.replace_with 1 2 (some 5) ⟨100, some .Rw, [1, 2, 3]⟩
        ⟨200, none, [4, 5, 6]⟩
        (KTable.set KTable.empty ⟨.Rw, 1, 2⟩ (some (100, 3)))).2.2.1 ⟨.Rw, 1, 2⟩ =
      some (100, 3) :=
  ⟨rfl, rfl⟩

/-- C4 (code bug, evaluation at the failing input): when the kernel rejects
the share performed inside `dynamic_type`'s `replace_with` (code 7), `self`
does **not** remain Shared: its share state is cleared to Unshared and the
call reports `Ok(())`.  (The returned storage is indeed self's pre-existing,
unchanged storage, and the kernel still holds self's region.) -/
theorem c4_replace_with_clobber_run :
    (dynamic_type.Buffer.replace_with 8 9 (some 7) ⟨300, some .Ro, [9, 9]⟩
        ⟨400, none, [7]⟩ (KTable.set KTable.empty ⟨.Ro, 8, 9⟩ (some (300, 2)))).1.shared = none
    ∧ (dynamic_type.Buffer.replace_with 8 9 (some 7) ⟨300, some .Ro, [9, 9]⟩
        ⟨400, none, [7]⟩ (KTable.set KTable.empty ⟨.Ro, 8, 9⟩ (some (300, 2)))).2.2.2.1 = [9, 9]
    ∧ (dynamic_type.Buffer.replace_with 8 9 (some 7) ⟨300, some .Ro, [9, 9]⟩
        ⟨400, none, [7]⟩
        (KTable.set KTable.empty ⟨.Ro, 8, 9⟩ (some (300, 2)))).2.2.2.2.1 = .ok ()
    ∧ (dynamic_type.Buffer.replace_with 8 9 (some 7) ⟨300, some .Ro, [9, 9]⟩
        ⟨400, none, [7]⟩
        (KTable.set KTable.empty ⟨.Ro, 8, 9⟩ (some (300, 2)))).2.2.1 ⟨.Ro, 8, 9⟩ =
      some (300, 2) :=
  ⟨rfl, rfl, rfl, rfl⟩

/-- C5: for the state-tracking variants, a successful `share(mode)` (the
kernel accepting) followed immediately by `reclaim()` (`unallow`) returns the
storage with contents identical to those before the share and leaves the
buffer Unshared with its contents unchanged. -/
theorem c5_share_reclaim_roundtrip :
    (∀ a (s : List Nat) t (k : KTable) d bn,
      (dynamic_type.Buffer.allow d bn none ⟨a, none, s⟩ t k).2.2.1 = .ok ())
    ∧ (∀ a (s : List Nat) t (k : KTable) d bn,
      dynamic_type.Buffer.unallow d bn (dynamic_type.Buffer.allow d bn none ⟨a, none, s⟩ t k).1
          (dynamic_type.Buffer.allow d bn none ⟨a, none, s⟩ t k).2.1 =
        (⟨a, none, s⟩,
         KTable.set (KTable.set k ⟨t, d, bn⟩ (some (a, s.length))) ⟨t, d, bn⟩ none,
         s, [⟨t, d, bn, none, 0⟩]))
    ∧ (∀ a (s : List Nat) t (k : KTable) d bn,
      (full_dynamic.Buffer.allow none ⟨a, none, s⟩ t d bn k).2.2.1 = .ok ())
    ∧ (∀ a (s : List Nat) t (k : KTable) d bn,
      full_dynamic.Buffer.unallow (full_dynamic.Buffer.allow none ⟨a, none, s⟩ t d bn k).1
          (full_dynamic.Buffer.allow none ⟨a, none, s⟩ t d bn k).2.1 =
        (⟨a, none, s⟩,
         KTable.set (KTable.set k ⟨t, d, bn⟩ (some (a, s.length))) ⟨t, d, bn⟩ none,
         s, [⟨t, d, bn, none, 0⟩])) := by
  refine ⟨?_, ?_, ?_, ?_⟩ <;> (intros; rfl)

/-- C6: `reclaim()` (`unallow`) is idempotent for every buffer in any share
state: the second call in a row changes neither the buffer nor the
kernel-visible share table, returns the same storage, and performs no kernel
call at all.  This holds for `dynamic_type`, for `full_dynamic`, and for the
underlying `unshare_if_shared` helper. -/
theorem c6_reclaim_idempotent :
    (∀ (b : dynamic_type.Buffer) (k : KTable) d bn,
      dynamic_type.Buffer.unallow d bn (dynamic_type.Buffer.unallow d bn b k).1
          (dynamic_type.Buffer.unallow d bn b k).2.1 =
        ((dynamic_type.Buffer.unallow d bn b k).1, (dynamic_type.Buffer.unallow d bn b k).2.1,
         (dynamic_type.Buffer.unallow d bn b k).2.2.1, []))
    ∧ (∀ (b : full_dynamic.Buffer) (k : KTable),
      full_dynamic.Buffer.unallow (full_dynamic.Buffer.unallow b k).1
          (full_dynamic.Buffer.unallow b k).2.1 =
        ((full_dynamic.Buffer.unallow b k).1, (full_dynamic.Buffer.unallow b k).2.1,
         (full_dynamic.Buffer.unallow b k).2.2.1, []))
    ∧ (∀ (sh : Option full_dynamic.ShareInfo) (k : KTable),
      full_dynamic.unshare_if_shared (full_dynamic.unshare_if_shared sh k).1
          (full_dynamic.unshare_if_shared sh k).2.1 =
        ((full_dynamic.unshare_if_shared sh k).1, (full_dynamic.unshare_if_shared sh k).2.1,
         [])) := by
  refine ⟨fun b k d bn => ?_, fun b k => ?_, fun sh k => ?_⟩
  · obtain ⟨a, sh, s⟩ := b
    cases sh <;> rfl
  · obtain ⟨a, sh, s⟩ := b
    cases sh <;> rfl
  · cases sh <;> rfl

/-- C7: the `swap_no_dynamic` double-buffer stream, when the kernel accepts
every share: `start()` shares buffer A's region and moves `NotStarted` to
A-active (and on kernel rejection leaves the status `NotStarted` with the
table unchanged); the first `next()` registers B's region in A's place,
returns A's storage and makes B active; the second `next()` registers A's
region again, returns B's storage and makes A active — returned storage and
active side strictly alternate. -/
theorem c7_double_buffer_alternation :
    (∀ aa ab (sa sb : List Nat) d bn (k : KTable),
      swap_no_dynamic.StreamingReceiveSlice.start d bn none ⟨⟨aa, sa⟩, ⟨ab, sb⟩, .None⟩ k =
        (⟨⟨aa, sa⟩, ⟨ab, sb⟩, .A⟩, KTable.set k ⟨.Rw, d, bn⟩ (some (aa, sa.length)), .ok (),
         [⟨.Rw, d, bn, some aa, sa.length⟩]))
    ∧ (∀ aa ab (sa sb : List Nat) d bn e (k : KTable),
      swap_no_dynamic.StreamingReceiveSlice.start d bn (some e) ⟨⟨aa, sa⟩, ⟨ab, sb⟩, .None⟩ k =
        (⟨⟨aa, sa⟩, ⟨ab, sb⟩, .None⟩, k, .error e, [⟨.Rw, d, bn, some aa, sa.length⟩]))
    ∧ (∀ aa ab (sa sb : List Nat) d bn (k : KTable),
      swap_no_dynamic.StreamingReceiveSlice.next d bn none ⟨⟨aa, sa⟩, ⟨ab, sb⟩, .A⟩ k =
        (⟨⟨aa, sa⟩, ⟨ab, sb⟩, .B⟩, KTable.set k ⟨.Rw, d, bn⟩ (some (ab, sb.length)), .ok sa,
         [⟨.Rw, d, bn, some ab, sb.length⟩]))
    ∧ (∀ aa ab (sa sb : List Nat) d bn (k : KTable),
      swap_no_dynamic.StreamingReceiveSlice.next d bn none ⟨⟨aa, sa⟩, ⟨ab, sb⟩, .B⟩ k =
        (⟨⟨aa, sa⟩, ⟨ab, sb⟩, .A⟩, KTable.set k ⟨.Rw, d, bn⟩ (some (aa, sa.length)), .ok sb,
         [⟨.Rw, d, bn, some aa, sa.length⟩])) := by
  refine ⟨?_, ?_, ?_, ?_⟩ <;> (intros; rfl)

/-- C8 (code bug, evaluation at the failing input): in the
`swap_dynamic_type` stream, after a successful `start()` (buffer A at
address 100 Shared RW and registered with the kernel), a `next()` whose new
share the kernel rejects (code 7) still flips the active side: buffer A's
share flag is cleared, buffer B becomes the Shared/active side, and `next`
returns `Ok` with A's storage — while the kernel still holds A's region. -/
theorem c8_advance_rejection_run :
    swap_dynamic_type.StreamingReceiveSlice.start 5 6 none
        (swap_dynamic_type.StreamingReceiveSlice.default 100 200 2) KTable.empty =
      (⟨⟨100, some .Rw, [0, 0]⟩, ⟨200, none, [0, 0]⟩⟩,
       KTable.set KTable.empty ⟨.Rw, 5, 6⟩ (some (100, 2)), .ok (),
       [⟨.Rw, 5, 6, some 100, 2⟩])
    ∧ swap_dynamic_type.StreamingReceiveSlice.next 5 6 (some 7)
        ⟨⟨100, some .Rw, [0, 0]⟩, ⟨200, none, [0, 0]⟩⟩
        (KTable.set KTable.empty ⟨.Rw, 5, 6⟩ (some (100, 2))) =
      (⟨⟨100, none, [0, 0]⟩, ⟨200, some .Rw, [0, 0]⟩⟩,
       KTable.set KTable.empty ⟨.Rw, 5, 6⟩ (some (100, 2)), .ok [0, 0],
       [⟨.Rw, 5, 6, some 100, 2⟩])
    ∧ (KTable.set KTable.empty ⟨.Rw, 5, 6⟩ (some (100, 2))) ⟨.Rw, 5, 6⟩ = some (100, 2) :=
  ⟨rfl, rfl, rfl⟩

/-- C9: destruction never leaves the kernel holding a share: for every
state-tracking buffer that is Shared when dropped, the destructor performs
exactly the unshare call for the recorded mode and id (with no error
reporting — the drop result carries none), and afterwards the kernel's table
holds nothing under that id. -/
theorem c9_drop_unshares_when_shared :
    (∀ a s p (k : KTable) d bn,
      dynamic_type.Buffer.drop d bn ⟨a, some p, s⟩ k =
        (KTable.set k ⟨p, d, bn⟩ none, [⟨p, d, bn, none, 0⟩]))
    ∧ (∀ a s p (k : KTable) d bn,
      (dynamic_type.Buffer.drop d bn ⟨a, some p, s⟩ k).1 ⟨p, d, bn⟩ = none)
    ∧ (∀ a s (i : full_dynamic.ShareInfo) (k : KTable),
      full_dynamic.Buffer.drop ⟨a, some i, s⟩ k =
        (KTable.set k ⟨i.allow_type, i.driver_num, i.buffer_num⟩ none,
         [⟨i.allow_type, i.driver_num, i.buffer_num, none, 0⟩]))
    ∧ (∀ a s (i : full_dynamic.ShareInfo) (k : KTable),
      (full_dynamic.Buffer.drop ⟨a, some i, s⟩ k).1 ⟨i.allow_type, i.driver_num, i.buffer_num⟩ =
        none)
    ∧ (∀ br (i : full_dynamic.ShareInfo) (k : KTable),
      full_dynamic.StaticBuffer.drop ⟨br, some i⟩ k =
        (KTable.set k ⟨i.allow_type, i.driver_num, i.buffer_num⟩ none,
         [⟨i.allow_type, i.driver_num, i.buffer_num, none, 0⟩]))
    ∧ (∀ br (i : full_dynamic.ShareInfo) (k : KTable),
      (full_dynamic.StaticBuffer.drop ⟨br, some i⟩ k).1
          ⟨i.allow_type, i.driver_num, i.buffer_num⟩ = none) := by
  refine ⟨fun a s p k d bn => rfl, fun a s p k d bn => ?_, fun a s i k => rfl,
    fun a s i k => ?_, fun br i k => rfl, fun br i k => ?_⟩
  · exact KTable.set_self k ⟨p, d, bn⟩ none
  · exact KTable.set_self k ⟨i.allow_type, i.driver_num, i.buffer_num⟩ none
  · exact KTable.set_self k ⟨i.allow_type, i.driver_num, i.buffer_num⟩ none

/-- C10: in the fully-static `no_dynamic` variant, `drop`, `buffer_mut` and
the read-write `buffer` each issue exactly one unshare kernel call for the
buffer's id, for **every** starting kernel table — even one in which this
buffer was never shared, or in which a different buffer's region is
registered under the id — and afterwards nothing is registered under that
id. -/
theorem c10_no_dynamic_unconditional_unshare :
    ∀ P d bn (b : no_dynamic.Buffer) (k : KTable),
      no_dynamic.Buffer.drop P d bn b k =
        (KTable.set k ⟨P, d, bn⟩ none, [⟨P, d, bn, none, 0⟩])
      ∧ no_dynamic.Buffer.buffer_mut P d bn b k =
        (KTable.set k ⟨P, d, bn⟩ none, b.storage, [⟨P, d, bn, none, 0⟩])
      ∧ no_dynamic.Buffer.buffer_rw d bn b k =
        (KTable.set k ⟨.Rw, d, bn⟩ none, b.storage, [⟨.Rw, d, bn, none, 0⟩])
      ∧ (KTable.set k ⟨P, d, bn⟩ none) ⟨P, d, bn⟩ = none :=
  fun P d bn b k =>
    ⟨rfl, rfl, rfl, KTable.set_self k ⟨P, d, bn⟩ none⟩

end AllowPin
